import Mathlib

/-!
Shallow embedding of the billing reconciliation and rating pipeline of the
`billing` repository (FastAPI + SQLAlchemy), centred on:

* `app/utils/billing_processor.py` (`BillingProcessor`)
* `app/models/api_usage_log.py` (`APIUsageLog`)
* `app/models/discount_rule.py` (`DiscountRule`)
* `app/api/routes/api_log.py` (`log_api_usage`)
* `app/cron/monthly_billing.py` (`generate_monthly_bills`)

Database tables are modelled as Lean lists kept in table order; a SQLAlchemy
`scalar_one_or_none()` query is modelled as `List.find?` over the table (the
first row satisfying the WHERE clause).  Monetary `Numeric` columns are
rationals, timestamps are calendar dates (the pipeline only ever compares
timestamps at whole-date granularity in the claims under study).  Python
truthiness tests on numbers (`if log_entry.total_tokens:` and similar) are
rendered as explicit `≠ 0` tests, and on strings as `≠ ""` tests.
-/

namespace Billing

/-- Python's `str.lower()`, character by character (all identifiers and
tags in the source are ASCII). -/
def toLowerStr (s : String) : String :=
  ⟨s.data.map Char.toLower⟩

/-- Whitespace stripped by Python's `str.strip()`. -/
def isSpaceChar (c : Char) : Bool :=
  c == ' ' || c == '\t' || c == '\n' || c == '\r'

/-- Python's `str.strip()`. -/
def trimStr (s : String) : String :=
  ⟨((s.data.dropWhile isSpaceChar).reverse.dropWhile isSpaceChar).reverse⟩

/-- Substring containment on character lists (structural recursion so that
concrete instances reduce). -/
def charContains : List Char → List Char → Bool
  | _, [] => true
  | [], _ :: _ => false
  | a :: as, n :: ns => List.isPrefixOf (n :: ns) (a :: as) || charContains as (n :: ns)

/-- SQL `col.contains(needle)` / Python `needle in haystack`:
substring containment, true for the empty needle. -/
def sqlContains (haystack needle : String) : Bool :=
  charContains haystack.data needle.data

/-- Python's `'_'.join(name.split('_')[1:])`: everything after the first
underscore (inner underscores are restored by the join). -/
def afterFirstUnderscore (s : String) : String :=
  ⟨(s.data.dropWhile (fun c => c != '_')).drop 1⟩

/-- Calendar date; `Numeric` timestamps in the source are compared at date
granularity in the code paths under study. -/
structure Date where
  year : Nat
  month : Nat
  day : Nat
deriving Repr, DecidableEq

/-- Lexicographic `<=` on dates (SQL timestamp comparison). -/
def Date.le (a b : Date) : Bool :=
  decide (a.year < b.year) ||
    (a.year == b.year &&
      (decide (a.month < b.month) ||
        (a.month == b.month && decide (a.day ≤ b.day))))

/-- Lexicographic `<` on dates (SQL timestamp comparison). -/
def Date.lt (a b : Date) : Bool :=
  decide (a.year < b.year) ||
    (a.year == b.year &&
      (decide (a.month < b.month) ||
        (a.month == b.month && decide (a.day < b.day))))

def isLeapYear (y : Nat) : Bool :=
  (y % 4 == 0 && y % 100 != 0) || y % 400 == 0

def daysInMonth (y m : Nat) : Nat :=
  if m = 2 then (if isLeapYear y then 29 else 28)
  else if m = 4 ∨ m = 6 ∨ m = 9 ∨ m = 11 then 30
  else 31

/-- The day after `d` (Python `timedelta(days=1)` addition). -/
def Date.succ (d : Date) : Date :=
  if d.day < daysInMonth d.year d.month then ⟨d.year, d.month, d.day + 1⟩
  else if d.month < 12 then ⟨d.year, d.month + 1, 1⟩
  else ⟨d.year + 1, 1, 1⟩

/-- The day before `d` (Python `timedelta(days=1)` subtraction). -/
def Date.pred (d : Date) : Date :=
  if 1 < d.day then ⟨d.year, d.month, d.day - 1⟩
  else if 1 < d.month then ⟨d.year, d.month - 1, daysInMonth d.year (d.month - 1)⟩
  else ⟨d.year - 1, 12, 31⟩

def Date.addDays : Date → Nat → Date
  | d, 0 => d
  | d, n + 1 => d.succ.addDays n

/-- Source: `app/models/ai_model.py` — `AIModel` (pricing-relevant columns). -/
inductive CostCalculationType
  | tokens
  | request
deriving Repr, DecidableEq

structure AIModel where
  id : Nat
  name : String
  model_identifier : String
  input_cost_per_1k_tokens : ℚ
  output_cost_per_1k_tokens : ℚ
  request_cost : ℚ
  cost_calculation_type : CostCalculationType
deriving Repr, DecidableEq

/-- Source: `app/models/user.py` — `User` (resolver-relevant columns), plus the
monthly cost of the user's subscription tier (`None` when the user has no
tier, the inner `monthly_cost or 0` coalescing being folded into the value). -/
structure User where
  id : Nat
  organization_name : String
  email : String
  subscription_monthly_cost : Option ℚ
deriving Repr, DecidableEq

/-- Source: `app/models/discount_rule.py` — `DiscountRule` (selection-relevant
columns).  `priority`, `min_requests`, `max_requests` are SQL `Integer`. -/
structure DiscountRule where
  id : Nat
  priority : Int
  user_id : Option Nat
  model_id : Option Nat
  min_requests : Int
  max_requests : Option Int
  discount_percentage : ℚ
  valid_from : Option Date
  valid_until : Option Date
  is_active : Bool
deriving Repr, DecidableEq

/-- Source: `app/models/api_usage_log.py` — `APIUsageLog`. -/
structure APIUsageLog where
  id : Nat
  user_id : Option Nat
  model_id : Option Nat
  raw_model_name : String
  company_name : Option String
  total_tokens : Nat
  original_cost : ℚ
  applied_discount : ℚ
  total_cost : ℚ
  response_time_ms : Nat
  status : String
  billing_processed : Bool
  error_message : Option String
  retry_count : Nat
  created_at : Date
  processed_at : Option Date
deriving Repr, DecidableEq

/-- Embeds `APIUsageLog.mark_as_processed` (`app/models/api_usage_log.py:87`).
The `if user_id:` / `if model_id:` guards are Python truthiness tests, so a
passed id is only written when it is non-`None` and non-zero. -/
def APIUsageLog.mark_as_processed (log : APIUsageLog)
    (user_id model_id : Option Nat) (now : Date) : APIUsageLog :=
  { log with
    user_id := match user_id with
      | some u => if u ≠ 0 then some u else log.user_id
      | none => log.user_id
    model_id := match model_id with
      | some m => if m ≠ 0 then some m else log.model_id
      | none => log.model_id
    billing_processed := true
    processed_at := some now }

/-- Embeds `BillingProcessor.find_user_by_company` (`billing_processor.py:22`).
Three strategies, stop at first hit: exact organization-name match,
bidirectional substring match, e-mail domain match. -/
def find_user_by_company (users : List User) (company_name : String) :
    Option User :=
  if company_name = "" then none
  else
    let company_lower := trimStr (toLowerStr company_name)
    match users.find? (fun u => toLowerStr u.organization_name == company_lower) with
    | some u => some u
    | none =>
      match users.find? (fun u =>
          sqlContains (toLowerStr u.organization_name) company_lower ||
          sqlContains company_lower (toLowerStr u.organization_name)) with
      | some u => some u
      | none =>
        users.find? (fun u => sqlContains (toLowerStr u.email) ("@" ++ company_lower))

/-- Embeds `BillingProcessor.find_model_by_name` (`billing_processor.py:69`).
Four strategies, stop at first hit: exact identifier match, exact name
match, field-contains-tag substring match, and — when the raw tag has an
underscore — field-contains-remainder after dropping the first
underscore-delimited segment. -/
def find_model_by_name (models : List AIModel) (model_name : String) :
    Option AIModel :=
  if model_name = "" then none
  else
    let model_lower := trimStr (toLowerStr model_name)
    match models.find? (fun m => toLowerStr m.model_identifier == model_lower) with
    | some m => some m
    | none =>
      match models.find? (fun m => toLowerStr m.name == model_lower) with
      | some m => some m
      | none =>
        match models.find? (fun m =>
            sqlContains (toLowerStr m.name) model_lower ||
            sqlContains (toLowerStr m.model_identifier) model_lower) with
        | some m => some m
        | none =>
          if model_name.data.contains '_' then
            let model_type := afterFirstUnderscore model_name
            models.find? (fun m =>
              sqlContains (toLowerStr m.name) (toLowerStr model_type) ||
              sqlContains (toLowerStr m.model_identifier) (toLowerStr model_type))
          else none

/-- Embeds `BillingProcessor.calculate_model_cost` (`billing_processor.py:131`).
The arithmetic body never raises, so the `except` branch returning `0.01`
is unreachable in this embedding. -/
def calculate_model_cost (log : APIUsageLog) (ai_model : Option AIModel) : ℚ :=
  let base_cost : ℚ :=
    match ai_model with
    | some m =>
      if log.total_tokens ≠ 0 ∧ m.input_cost_per_1k_tokens ≠ 0 then
        (log.total_tokens : ℚ) * (m.input_cost_per_1k_tokens / 1000)
      else if m.request_cost ≠ 0 then
        m.request_cost
      else
        (0.01 : ℚ)
    | none =>
      if log.total_tokens ≠ 0 then
        (log.total_tokens : ℚ) * (0.0001 : ℚ)
      else
        (0.01 : ℚ)
  let discount_amount := base_cost * (log.applied_discount / 100)
  let final_cost := base_cost - discount_amount
  max 0 final_cost

/-- The `# Find and map user` block of `BillingProcessor.process_billing_entry`
(`billing_processor.py:198`): when the row carries a (truthy) company name,
look the user up; write `user_id` on a hit, `error_message` on a miss. -/
def userResolutionStep (users : List User) (log0 : APIUsageLog) : APIUsageLog :=
  match log0.company_name with
  | some c =>
    if c ≠ "" then
      match find_user_by_company users c with
      | some u => { log0 with user_id := some u.id }
      | none =>
        { log0 with error_message := some ("No user found for company: " ++ c) }
    else log0
  | none => log0

/-- The `# Find and map model` block of `BillingProcessor.process_billing_entry`
(`billing_processor.py:213`): when the row carries a (truthy) raw model
name, look the model up; on a hit write `model_id` and re-rate the entry
(`original_cost := new_cost`, `total_cost := new_cost * (1 - discount/100)`),
on a miss write `error_message`. -/
def modelResolutionStep (models : List AIModel) (log1 : APIUsageLog) :
    APIUsageLog :=
  if log1.raw_model_name ≠ "" then
    match find_model_by_name models log1.raw_model_name with
    | some m =>
      let log2a := { log1 with model_id := some m.id }
      let new_cost := calculate_model_cost log2a (some m)
      { log2a with
        original_cost := new_cost
        total_cost := new_cost * (1 - log2a.applied_discount / 100) }
    | none =>
      { log1 with
        error_message := some ("No AI model found for: " ++ log1.raw_model_name) }
  else log1

/-- Embeds `BillingProcessor.process_billing_entry` (`billing_processor.py:169`),
success path of the transaction on the fetched row: map the company name to
a user, map the raw model name to a model (re-rating the entry when one is
found), then mark the row processed.  There is no early return for rows that
are already processed. -/
def process_billing_entry (users : List User) (models : List AIModel)
    (now : Date) (log0 : APIUsageLog) : APIUsageLog :=
  let log2 := modelResolutionStep models (userResolutionStep users log0)
  log2.mark_as_processed log2.user_id log2.model_id now

/-- Embeds `BillingProcessor.get_unprocessed_entries` (`billing_processor.py:268`):
unprocessed rows ordered by `created_at` ascending, bounded by `limit`. -/
def get_unprocessed_entries (logs : List APIUsageLog) (limit : Nat) :
    List APIUsageLog :=
  ((logs.filter (fun l => l.billing_processed == false)).mergeSort
      (fun a b => Date.le a.created_at b.created_at)).take limit

/-- The row selection of `BillingProcessor.reprocess_failed_entries`
(`billing_processor.py:284`): unprocessed rows that recorded an error and
are still below `max_retries`, ordered by `created_at`, batches of 50. -/
def reprocess_failed_selection (logs : List APIUsageLog) (max_retries : Nat) :
    List APIUsageLog :=
  ((logs.filter (fun l =>
      l.billing_processed == false && l.error_message.isSome &&
        decide (l.retry_count < max_retries))).mergeSort
      (fun a b => Date.le a.created_at b.created_at)).take 50

/-! ### Discount selection and the direct-logging route
(`app/api/routes/api_log.py`) -/

/-- The WHERE clause of the discount query in `log_api_usage`
(`api_log.py:50`): active, `user_id == data.user_id`,
`model_id == data.model_id`, `min_requests <= request_count`, and
`max_requests IS NULL OR max_requests >= request_count`.  SQL `NULL = value`
is not true, so rules whose `user_id` or `model_id` column is NULL never
satisfy this clause. -/
def discountCandidate (r : DiscountRule) (user_id model_id : Nat)
    (request_count : Nat) : Bool :=
  r.is_active && r.user_id == some user_id && r.model_id == some model_id &&
    decide (r.min_requests ≤ (request_count : Int)) &&
    (match r.max_requests with
     | none => true
     | some mx => decide ((request_count : Int) ≤ mx))

/-- One step of a stable minimum-by-priority scan. -/
def minStep (acc : Option DiscountRule) (r : DiscountRule) : Option DiscountRule :=
  match acc with
  | none => some r
  | some b => if r.priority < b.priority then some r else acc

/-- Embeds `ORDER BY priority` followed by `.first()`: the first row of
minimal priority in table order (a stable minimum). -/
def firstMinByPriority (rs : List DiscountRule) : Option DiscountRule :=
  rs.foldl minStep none

/-- The discount lookup of `log_api_usage` (`api_log.py:50` through
`.first()` at line 61). -/
def select_applicable_discount (rules : List DiscountRule)
    (user_id model_id request_count : Nat) : Option DiscountRule :=
  firstMinByPriority
    (rules.filter (fun r => discountCandidate r user_id model_id request_count))

/-- First instant of the month containing `now`
(`datetime.utcnow().replace(day=1, ...)`, `api_log.py:43`). -/
def start_of_month (now : Date) : Date := ⟨now.year, now.month, 1⟩

/-- Request body of `log_api_usage` (`api_log.py:15`). -/
structure UsageLogInput where
  user_id : Nat
  model_id : Nat
  status : String
  response_time_ms : Nat
  input_tokens : Nat
  output_tokens : Nat
deriving Repr, DecidableEq

/-- Embeds `log_api_usage` (`api_log.py:23`): rate the call (zero unless the status
is `"success"`), count this month's rows for the user, pick a discount, and
build the inserted `APIUsageLog` row.  `none` models the 404 raised when the
model id is unknown. -/
def log_api_usage (models : List AIModel) (rules : List DiscountRule)
    (logs : List APIUsageLog) (now : Date) (data : UsageLogInput) :
    Option APIUsageLog :=
  match models.find? (fun m => m.id == data.model_id) with
  | none => none
  | some model =>
    let total_tokens := data.input_tokens + data.output_tokens
    let original_cost : ℚ :=
      if data.status = "success" then
        match model.cost_calculation_type with
        | CostCalculationType.tokens =>
          ((data.input_tokens : ℚ) / 1000) * model.input_cost_per_1k_tokens +
            ((data.output_tokens : ℚ) / 1000) * model.output_cost_per_1k_tokens
        | CostCalculationType.request => model.request_cost
      else 0
    let request_count :=
      (logs.filter (fun l =>
        l.user_id == some data.user_id &&
          Date.le (start_of_month now) l.created_at)).length
    let applicable_discount :=
      select_applicable_discount rules data.user_id data.model_id request_count
    let applied_discount_percentage : ℚ :=
      match applicable_discount with
      | some r => r.discount_percentage
      | none => 0
    let total_cost := original_cost * (1 - applied_discount_percentage / 100)
    some
      { id := 0
        user_id := some data.user_id
        model_id := some data.model_id
        raw_model_name := ""
        company_name := none
        total_tokens := total_tokens
        original_cost := original_cost
        applied_discount := applied_discount_percentage
        total_cost := total_cost
        response_time_ms := data.response_time_ms
        status := data.status
        billing_processed := false
        error_message := none
        retry_count := 0
        created_at := now
        processed_at := none }

/-! ### Monthly aggregation (`app/cron/monthly_billing.py`) -/

/-- Source: `app/models/billing_summary.py` — `MonthlyBillingSummary`
(columns written by the cron job). -/
structure MonthlyBillingSummary where
  user_id : Nat
  year : Nat
  month : Nat
  total_requests : Nat
  total_tokens : Nat
  usage_cost : ℚ
  subscription_cost : ℚ
  total_discount : ℚ
  total_cost : ℚ
  payment_due_date : Date
deriving Repr, DecidableEq

/-- The store the cron job reads and writes. -/
structure BillingDB where
  users : List User
  logs : List APIUsageLog
  summaries : List MonthlyBillingSummary
deriving Repr, DecidableEq

/-- Embeds `today.replace(day=1) - timedelta(days=1)` (`monthly_billing.py:10`). -/
def first_day_last_month (today : Date) : Date :=
  Date.pred ⟨today.year, today.month, 1⟩

def targetYear (today : Date) : Nat := (first_day_last_month today).year

def targetMonth (today : Date) : Nat := (first_day_last_month today).month

/-- Embeds `datetime(year, month, 28) + timedelta(days=4)` then `.replace(day=1)`
(`monthly_billing.py:18`). -/
def monthEnd (year month : Nat) : Date :=
  { Date.addDays ⟨year, month, 28⟩ 4 with day := 1 }

/-- The per-user body of the loop in `generate_monthly_bills`
(`monthly_billing.py:16`): aggregate the user's usage rows whose
`created_at` lies in `[start_date, end_date)` and build the summary row. -/
def userMonthlySummary (logs : List APIUsageLog) (today : Date)
    (year month : Nat) (u : User) : MonthlyBillingSummary :=
  let start_date : Date := ⟨year, month, 1⟩
  let end_date : Date := monthEnd year month
  let in_month := logs.filter (fun l =>
    l.user_id == some u.id && Date.le start_date l.created_at &&
      Date.lt l.created_at end_date)
  let total_requests := in_month.length
  let total_tokens := (in_month.map (fun l => l.total_tokens)).sum
  let original_usage_cost := (in_month.map (fun l => l.original_cost)).sum
  let usage_cost := (in_month.map (fun l => l.total_cost)).sum
  let total_discount := original_usage_cost - usage_cost
  let subscription_cost : ℚ :=
    match u.subscription_monthly_cost with
    | some c => c
    | none => 0
  { user_id := u.id
    year := year
    month := month
    total_requests := total_requests
    total_tokens := total_tokens
    usage_cost := usage_cost
    subscription_cost := subscription_cost
    total_discount := total_discount
    total_cost := usage_cost + subscription_cost
    payment_due_date := Date.addDays today 7 }

/-- Embeds `generate_monthly_bills` (`monthly_billing.py:8`): for last calendar
month, append one `MonthlyBillingSummary` row per user.  The loop performs
no lookup of an existing row for `(user_id, year, month)` before `db.add`. -/
def generate_monthly_bills (db : BillingDB) (today : Date) : BillingDB :=
  { db with
    summaries := db.summaries ++
      db.users.map
        (userMonthlySummary db.logs today (targetYear today) (targetMonth today)) }

/-! ### Definitions taken from the specification's wording

The following definitions are NOT read off the source; they transcribe the
claims' own words so that the behaviour the spec describes can be compared
with the behaviour the code implements. -/

/-- First instant of the month after `(year, month)` (the spec's
"first instant of the next month"). -/
def nextMonthStart (year month : Nat) : Date :=
  if month = 12 then ⟨year + 1, 1, 1⟩ else ⟨year, month + 1, 1⟩

/-- Candidate predicate transcribed from the claim's words: active, within
the validity window (`valid_from <= now` or null, `valid_until > now` or
null), `model_id` matches or is null (global), `user_id` matches or is null
(global), and `min_usage_count <= usage_count <= max_usage_count` (max null
meaning unbounded). -/
def claimCandidate (now : Date) (r : DiscountRule) (user_id model_id : Nat)
    (usage_count : Nat) : Bool :=
  r.is_active &&
    (match r.valid_from with
     | none => true
     | some d => Date.le d now) &&
    (match r.valid_until with
     | none => true
     | some d => Date.lt now d) &&
    (r.model_id == none || r.model_id == some model_id) &&
    (r.user_id == none || r.user_id == some user_id) &&
    decide (r.min_requests ≤ (usage_count : Int)) &&
    (match r.max_requests with
     | none => true
     | some mx => decide ((usage_count : Int) ≤ mx))

/-- Model lookup transcribed from the claim's words: exact identifier,
exact name, then substring containment IN BOTH DIRECTIONS (identifier or
name contains the raw tag, or vice versa), then — when the tag has an
underscore — the same bidirectional substring match on the remainder after
stripping the first underscore-delimited segment. -/
def claimFindModel (models : List AIModel) (model_name : String) :
    Option AIModel :=
  if model_name = "" then none
  else
    let model_lower := trimStr (toLowerStr model_name)
    match models.find? (fun m => toLowerStr m.model_identifier == model_lower) with
    | some m => some m
    | none =>
      match models.find? (fun m => toLowerStr m.name == model_lower) with
      | some m => some m
      | none =>
        match models.find? (fun m =>
            sqlContains (toLowerStr m.name) model_lower ||
            sqlContains (toLowerStr m.model_identifier) model_lower ||
            sqlContains model_lower (toLowerStr m.name) ||
            sqlContains model_lower (toLowerStr m.model_identifier)) with
        | some m => some m
        | none =>
          if model_name.data.contains '_' then
            let model_type := afterFirstUnderscore model_name
            models.find? (fun m =>
              sqlContains (toLowerStr m.name) (toLowerStr model_type) ||
              sqlContains (toLowerStr m.model_identifier) (toLowerStr model_type) ||
              sqlContains (toLowerStr model_type) (toLowerStr m.name) ||
              sqlContains (toLowerStr model_type) (toLowerStr m.model_identifier))
          else none

/-- Aggregation scope transcribed from the claim's words: net cost summed
over exactly the `processed` events whose `processed_at` timestamp falls in
`[first instant of the month, first instant of the next month)`. -/
def claimedMonthlyUsageCost (logs : List APIUsageLog) (user_id year month : Nat) :
    ℚ :=
  ((logs.filter (fun l =>
      l.user_id == some user_id && l.billing_processed &&
        (match l.processed_at with
         | some d =>
           Date.le ⟨year, month, 1⟩ d && Date.lt d (nextMonthStart year month)
         | none => false))).map (fun l => l.total_cost)).sum

/-- Aggregation scope as the code implements it, transcribed independently
of `userMonthlySummary`: net cost summed over all events of the user — any
processing state — whose `created_at` falls in
`[first instant of the month, first instant of the next month)`. -/
def createdAtMonthlyUsageCost (logs : List APIUsageLog) (user_id year month : Nat) :
    ℚ :=
  ((logs.filter (fun l =>
      l.user_id == some user_id && Date.le ⟨year, month, 1⟩ l.created_at &&
        Date.lt l.created_at (nextMonthStart year month))).map
    (fun l => l.total_cost)).sum

/-! ### Concrete rows used in the concrete theorems below -/

/-- A freshly ingested usage row with every pipeline field at its column
default. -/
def exBaseLog : APIUsageLog :=
  { id := 1, user_id := none, model_id := none, raw_model_name := "m",
    company_name := none, total_tokens := 0, original_cost := 0,
    applied_discount := 0, total_cost := 0, response_time_ms := 0,
    status := "success", billing_processed := false, error_message := none,
    retry_count := 0, created_at := ⟨2025, 1, 10⟩, processed_at := none }

def exEmailModel : AIModel :=
  { id := 7, name := "Email Classifier", model_identifier := "email_classifier",
    input_cost_per_1k_tokens := 2, output_cost_per_1k_tokens := 0,
    request_cost := 0, cost_calculation_type := CostCalculationType.tokens }

def exGpt4Model : AIModel :=
  { id := 3, name := "gpt-4", model_identifier := "gpt-4",
    input_cost_per_1k_tokens := 3, output_cost_per_1k_tokens := 6,
    request_cost := 0, cost_calculation_type := CostCalculationType.tokens }

def exSentModel : AIModel :=
  { id := 4, name := "Sentiment", model_identifier := "sentiment",
    input_cost_per_1k_tokens := 2, output_cost_per_1k_tokens := 0,
    request_cost := 0, cost_calculation_type := CostCalculationType.tokens }

/-- A registered model whose configured per-1k-token price is negative
(nothing in the schema or the admin route bounds the `Numeric` columns). -/
def exNegPriceModel : AIModel :=
  { id := 9, name := "badly priced", model_identifier := "badpriced",
    input_cost_per_1k_tokens := -1, output_cost_per_1k_tokens := 0,
    request_cost := 0, cost_calculation_type := CostCalculationType.tokens }

def exUser1 : User :=
  { id := 1, organization_name := "Acme", email := "a@acme.com",
    subscription_monthly_cost := none }

/-- A row that is already processed. -/
def exProcessedLog : APIUsageLog :=
  { exBaseLog with billing_processed := true, processed_at := some ⟨2025, 1, 1⟩ }

/-- A row whose raw model tag matches no registered model. -/
def exUnresolvedLog : APIUsageLog :=
  { exBaseLog with raw_model_name := "acme_foo" }

/-- A row whose model resolves but whose company tag matches no user. -/
def exOrphanLog : APIUsageLog :=
  { exBaseLog with
      raw_model_name := "sentiment"
      company_name := some "acme"
      total_tokens := 1000 }

/-- A failed call that nevertheless carries a token count. -/
def exErrorLog : APIUsageLog :=
  { exBaseLog with status := "error", total_tokens := 1000 }

/-- A row rated against `exNegPriceModel` under a 200% discount
(`discount_percentage` is an unvalidated `Numeric(5, 2)` column). -/
def exOverdiscountedLog : APIUsageLog :=
  { exBaseLog with
      raw_model_name := "badpriced"
      total_tokens := 1000
      applied_discount := 200 }

/-- A row at a 100% discount with no resolved model. -/
def exFullDiscountLog : APIUsageLog :=
  { exBaseLog with total_tokens := 100, applied_discount := 100 }

/-- A global discount rule (NULL `user_id` and `model_id`). -/
def exGlobalRule : DiscountRule :=
  { id := 1, priority := 1, user_id := none, model_id := none,
    min_requests := 0, max_requests := none, discount_percentage := 10,
    valid_from := none, valid_until := none, is_active := true }

/-- A user- and model-specific discount rule. -/
def exUserRule : DiscountRule :=
  { id := 2, priority := 5, user_id := some 1, model_id := some 2,
    min_requests := 0, max_requests := none, discount_percentage := 25,
    valid_from := none, valid_until := none, is_active := true }

/-- An unprocessed in-month usage row for user 1 worth 5. -/
def exInMonthLog : APIUsageLog :=
  { exBaseLog with
      user_id := some 1
      total_tokens := 100
      original_cost := 5
      total_cost := 5 }

/-- A one-user store holding `exInMonthLog` and no summaries. -/
def exDB : BillingDB :=
  { users := [exUser1], logs := [exInMonthLog], summaries := [] }

/-! ### Helper lemmas -/

/-- The user-mapping block only ever writes `user_id` and `error_message`. -/
theorem userResolutionStep_fields (users : List User) (log : APIUsageLog) :
    (userResolutionStep users log).raw_model_name = log.raw_model_name ∧
      (userResolutionStep users log).model_id = log.model_id ∧
      (userResolutionStep users log).total_tokens = log.total_tokens ∧
      (userResolutionStep users log).applied_discount = log.applied_discount ∧
      (userResolutionStep users log).original_cost = log.original_cost ∧
      (userResolutionStep users log).total_cost = log.total_cost ∧
      (userResolutionStep users log).retry_count = log.retry_count ∧
      (userResolutionStep users log).status = log.status := by
  unfold userResolutionStep
  repeat' split
  all_goals exact ⟨rfl, rfl, rfl, rfl, rfl, rfl, rfl, rfl⟩

/-- When the user lookup misses, the user-mapping block keeps `user_id`. -/
theorem userResolutionStep_user_miss (users : List User) (log : APIUsageLog)
    (c : String) (hc : log.company_name = some c) (hcne : c ≠ "")
    (hmiss : find_user_by_company users c = none) :
    userResolutionStep users log =
      { log with error_message := some ("No user found for company: " ++ c) } := by
  unfold userResolutionStep
  rw [hc]
  simp only [hmiss]
  rw [if_pos hcne]

/-- The rater `calculate_model_cost` reads only `total_tokens` and `applied_discount`
from the row. -/
theorem calculate_model_cost_congr (l1 l2 : APIUsageLog) (mo : Option AIModel)
    (h1 : l1.total_tokens = l2.total_tokens)
    (h2 : l1.applied_discount = l2.applied_discount) :
    calculate_model_cost l1 mo = calculate_model_cost l2 mo := by
  unfold calculate_model_cost
  rw [h1, h2]

/-- When the model lookup misses, the model-mapping block only records the
error. -/
theorem modelResolutionStep_miss (models : List AIModel) (log : APIUsageLog)
    (hname : log.raw_model_name ≠ "")
    (hmiss : find_model_by_name models log.raw_model_name = none) :
    modelResolutionStep models log =
      { log with
          error_message := some ("No AI model found for: " ++ log.raw_model_name) } := by
  unfold modelResolutionStep
  rw [if_pos hname, hmiss]

/-- When the model lookup hits, the model-mapping block writes the model id
and re-rates the entry. -/
theorem modelResolutionStep_found (models : List AIModel) (log : APIUsageLog)
    (m : AIModel) (hname : log.raw_model_name ≠ "")
    (hfound : find_model_by_name models log.raw_model_name = some m) :
    modelResolutionStep models log =
      { log with
          model_id := some m.id
          original_cost :=
            calculate_model_cost { log with model_id := some m.id } (some m)
          total_cost :=
            calculate_model_cost { log with model_id := some m.id } (some m) *
              (1 - log.applied_discount / 100) } := by
  unfold modelResolutionStep
  rw [if_pos hname, hfound]

/-- Marking with `mark_as_processed`, fed the row's own ids (as
`process_billing_entry` does), keeps both ids. -/
theorem mark_keeps_ids (log : APIUsageLog) (now : Date) :
    (log.mark_as_processed log.user_id log.model_id now).user_id = log.user_id ∧
      (log.mark_as_processed log.user_id log.model_id now).model_id
        = log.model_id := by
  constructor
  · show (match log.user_id with
      | some u => if u ≠ 0 then some u else log.user_id
      | none => log.user_id) = log.user_id
    cases h : log.user_id with
    | none => rfl
    | some u =>
      show (if u ≠ 0 then some u else some u) = some u
      split <;> rfl
  · show (match log.model_id with
      | some m => if m ≠ 0 then some m else log.model_id
      | none => log.model_id) = log.model_id
    cases h : log.model_id with
    | none => rfl
    | some m =>
      show (if m ≠ 0 then some m else some m) = some m
      split <;> rfl

/-- Rows returned by the default sweep are unprocessed. -/
theorem mem_get_unprocessed_entries (x : APIUsageLog) (logs : List APIUsageLog)
    (lim : Nat) (hx : x ∈ get_unprocessed_entries logs lim) :
    x.billing_processed = false := by
  unfold get_unprocessed_entries at hx
  have h1 := List.take_subset _ _ hx
  have h2 := List.mem_mergeSort.mp h1
  have h3 := List.mem_filter.mp h2
  simpa using h3.2

/-! ### C1 -/

/-- C1 counterexample: `process_billing_entry` applied to an
already-processed row is not a no-op — it overwrites `processed_at` (and
records a model-resolution error), so re-running reconciliation on a
processed event changes fields of the event. -/
theorem c1_counterexample :
    exProcessedLog.billing_processed = true ∧
      process_billing_entry [] [] ⟨2025, 1, 2⟩ exProcessedLog ≠ exProcessedLog := by
  decide

/-- C1 (amended): `process_billing_entry` has no idempotence guard: it never
returns early on an already-processed row, and every invocation re-runs
resolution and rating and rewrites `processed_at := now`; the
`billing_processed` flag itself is set to `True` unconditionally (and is
never cleared), so the event never leaves the processed state. -/
theorem c1_reprocessing_not_noop (users : List User) (models : List AIModel)
    (now : Date) (log : APIUsageLog) :
    (process_billing_entry users models now log).billing_processed = true ∧
      (process_billing_entry users models now log).processed_at = some now :=
  ⟨rfl, rfl⟩

/-! ### C10 -/

/-- C10 counterexample: with no resolved model, 100 tokens and a 100%
applied discount the computed cost is exactly 0, not strictly positive. -/
theorem c10_counterexample :
    calculate_model_cost exFullDiscountLog none = 0 := by
  norm_num [calculate_model_cost, exFullDiscountLog, exBaseLog]

/-- C10 (amended): the default-pricing fallback yields a non-negative cost,
and a strictly positive one whenever the applied discount is below 100% —
both when no model is resolved and when the resolved model has no usable
pricing fields; at a discount of 100% or more the `max(0, ...)` floor makes
the result 0, so the cost is not strictly positive in general. -/
theorem c10_default_pricing :
    (∀ (log : APIUsageLog) (mo : Option AIModel),
        0 ≤ calculate_model_cost log mo) ∧
      (∀ log : APIUsageLog, log.applied_discount < 100 →
        0 < calculate_model_cost log none) ∧
      (∀ (log : APIUsageLog) (m : AIModel),
        m.input_cost_per_1k_tokens = 0 → m.request_cost = 0 →
          log.applied_discount < 100 → 0 < calculate_model_cost log (some m)) := by
  refine ⟨?_, ?_, ?_⟩
  · intro log mo
    unfold calculate_model_cost
    exact le_max_left 0 _
  · intro log hd
    unfold calculate_model_cost
    dsimp only
    have hfac : 0 < 1 - log.applied_discount / 100 := by
      have : log.applied_discount / 100 < 1 := by
        rw [div_lt_one (by norm_num : (0:ℚ) < 100)]
        exact hd
      linarith
    have hbase : 0 < (if log.total_tokens ≠ 0 then
        (log.total_tokens : ℚ) * (0.0001 : ℚ) else (0.01 : ℚ)) := by
      split
      · rename_i ht
        have : 0 < (log.total_tokens : ℚ) := by
          exact_mod_cast Nat.pos_of_ne_zero ht
        positivity
      · norm_num
    have hfinal : 0 < (if log.total_tokens ≠ 0 then
        (log.total_tokens : ℚ) * (0.0001 : ℚ) else (0.01 : ℚ)) *
          (1 - log.applied_discount / 100) := mul_pos hbase hfac
    have heq : (if log.total_tokens ≠ 0 then
        (log.total_tokens : ℚ) * (0.0001 : ℚ) else (0.01 : ℚ)) -
          (if log.total_tokens ≠ 0 then
            (log.total_tokens : ℚ) * (0.0001 : ℚ) else (0.01 : ℚ)) *
            (log.applied_discount / 100)
        = (if log.total_tokens ≠ 0 then
            (log.total_tokens : ℚ) * (0.0001 : ℚ) else (0.01 : ℚ)) *
            (1 - log.applied_discount / 100) := by ring
    rw [heq]
    exact lt_max_of_lt_right hfinal
  · intro log m hin hreq hd
    unfold calculate_model_cost
    dsimp only
    have hcond : ¬(log.total_tokens ≠ 0 ∧ m.input_cost_per_1k_tokens ≠ 0) := by
      rintro ⟨-, habs⟩
      exact habs hin
    simp only [hcond, if_false, hreq, if_neg (by simp : ¬(0:ℚ) ≠ 0)]
    have hfac : 0 < 1 - log.applied_discount / 100 := by
      have : log.applied_discount / 100 < 1 := by
        rw [div_lt_one (by norm_num : (0:ℚ) < 100)]
        exact hd
      linarith
    have hfinal : 0 < (0.01 : ℚ) * (1 - log.applied_discount / 100) := by
      have : (0:ℚ) < 0.01 := by norm_num
      exact mul_pos this hfac
    have heq : (0.01 : ℚ) - (0.01 : ℚ) * (log.applied_discount / 100)
        = (0.01 : ℚ) * (1 - log.applied_discount / 100) := by ring
    rw [heq]
    exact lt_max_of_lt_right hfinal

/-- C10 witness. -/
theorem c10_witness :
    exInMonthLog.applied_discount < 100 ∧
      0 < calculate_model_cost exInMonthLog none :=
  ⟨by decide, c10_default_pricing.2.1 exInMonthLog (by decide)⟩

/-! ### C3 -/

/-- C3 counterexample: a failed call (`status = "error"`) with 1000 tokens,
rated by `BillingProcessor.calculate_model_cost` against a model priced at
2 per 1k tokens, is charged 2, not 0 — the function never inspects
`status`. -/
theorem c3_counterexample :
    exErrorLog.status ≠ "success" ∧
      calculate_model_cost exErrorLog (some exEmailModel) = 2 := by
  constructor
  · decide
  · norm_num [calculate_model_cost, exErrorLog, exBaseLog, exEmailModel]

/-- C3 (amended): the ingestion route `log_api_usage` rates any
non-`"success"` event at gross 0 and net 0 regardless of model and
discount; but `BillingProcessor.calculate_model_cost` — the reconciliation
rater — reads no status field at all, so through that path failed calls are
charged like successful ones. -/
theorem c3_failed_calls_zero :
    (∀ (models : List AIModel) (rules : List DiscountRule)
        (logs : List APIUsageLog) (now : Date) (data : UsageLogInput)
        (entry : APIUsageLog),
        data.status ≠ "success" →
          log_api_usage models rules logs now data = some entry →
            entry.original_cost = 0 ∧ entry.total_cost = 0) ∧
      (∀ (log : APIUsageLog) (mo : Option AIModel) (s : String),
        calculate_model_cost { log with status := s } mo
          = calculate_model_cost log mo) := by
  constructor
  · intro models rules logs now data entry hstat heq
    unfold log_api_usage at heq
    cases hfind : models.find? (fun m => m.id == data.model_id) with
    | none => rw [hfind] at heq; cases heq
    | some model =>
      rw [hfind] at heq
      dsimp only at heq
      rw [if_neg hstat] at heq
      injection heq with heq
      subst heq
      refine ⟨rfl, ?_⟩
      show (0 : ℚ) * (1 - _ / 100) = 0
      ring
  · intro log mo s
    rfl

/-- An ingestion request for a failed call. -/
def exErrorInput : UsageLogInput :=
  { user_id := 1, model_id := 7, status := "error", response_time_ms := 10,
    input_tokens := 500, output_tokens := 500 }

/-- C3 witness. -/
theorem c3_witness :
    (log_api_usage [exEmailModel] [] [] ⟨2025, 1, 1⟩ exErrorInput).map
        (fun e => e.original_cost) = some 0 ∧
      (log_api_usage [exEmailModel] [] [] ⟨2025, 1, 1⟩ exErrorInput).map
        (fun e => e.total_cost) = some 0 := by
  have h := c3_failed_calls_zero.1 [exEmailModel] [] [] ⟨2025, 1, 1⟩ exErrorInput _
    (by decide) rfl
  exact ⟨congrArg some h.1, congrArg some h.2⟩

/-! ### C9 -/

/-- C9 counterexample: the tag `"gpt-4-vision"` contains the registered
name `"gpt-4"`, so the claim's bidirectional substring step resolves it;
the code's substring step only tests whether the model's name or identifier
contains the tag (never the reverse), and the tag has no underscore, so the
code resolves nothing. -/
theorem c9_counterexample :
    claimFindModel [exGpt4Model] "gpt-4-vision" = some exGpt4Model ∧
      find_model_by_name [exGpt4Model] "gpt-4-vision" = none := by
  decide

/-- C9 (amended): lookup order is exact identifier, exact name, then
one-directional substring containment (the model's name or identifier
contains the raw tag — never the tag containing them), then the
underscore-stripped remainder matched the same one-directional way; all
comparisons on lowercased text.  When every field-contains-tag test fails
and the tag has no underscore the lookup returns nothing, whatever the tag
contains; and `"acmecorp_email_classifier"` resolves to the model named
`"Email Classifier"` through its identifier `"email_classifier"` via the
stripped-prefix step. -/
theorem c9_resolver_order :
    find_model_by_name [exEmailModel] "acmecorp_email_classifier"
        = some exEmailModel ∧
      (∀ (models : List AIModel) (tag : String),
        tag.data.contains '_' = false →
          (∀ m ∈ models,
            (toLowerStr m.model_identifier == trimStr (toLowerStr tag)) = false ∧
              (toLowerStr m.name == trimStr (toLowerStr tag)) = false ∧
              sqlContains (toLowerStr m.name) (trimStr (toLowerStr tag)) = false ∧
              sqlContains (toLowerStr m.model_identifier)
                  (trimStr (toLowerStr tag)) = false) →
          find_model_by_name models tag = none) := by
  constructor
  · decide
  · intro models tag hu hmiss
    unfold find_model_by_name
    split
    · rfl
    · dsimp only
      rw [List.find?_eq_none.mpr fun m hm => by simp [(hmiss m hm).1],
        List.find?_eq_none.mpr fun m hm => by simp [(hmiss m hm).2.1],
        List.find?_eq_none.mpr fun m hm => by
          simp [(hmiss m hm).2.2.1, (hmiss m hm).2.2.2]]
      simp only [hu]
      simp [hu]

/-- C9 witness. -/
theorem c9_witness :
    find_model_by_name [exGpt4Model] "gpt-4-vision" = none :=
  c9_resolver_order.2 [exGpt4Model] "gpt-4-vision" (by decide)
    (by intro m hm; simp at hm; subst hm; refine ⟨by decide, by decide, by decide, by decide⟩)

/-! ### C6 -/

/-- Folding `minStep` from a non-empty accumulator yields the first element
of minimal priority among the accumulator and the scanned list. -/
theorem foldl_minStep_some (rs : List DiscountRule) (b : DiscountRule) :
    ∃ c, rs.foldl minStep (some b) = some c ∧ (c = b ∨ c ∈ rs) ∧
      c.priority ≤ b.priority ∧ ∀ x ∈ rs, c.priority ≤ x.priority := by
  induction rs generalizing b with
  | nil => exact ⟨b, rfl, Or.inl rfl, le_refl _, by simp⟩
  | cons r rs ih =>
    rw [List.foldl_cons]
    by_cases h : r.priority < b.priority
    · have hstep : minStep (some b) r = some r := by
        show (if r.priority < b.priority then some r else some b) = some r
        rw [if_pos h]
      rw [hstep]
      obtain ⟨c, hc, hmem, hle, hall⟩ := ih r
      refine ⟨c, hc, ?_, ?_, ?_⟩
      · rcases hmem with hcb | hcm
        · exact Or.inr (hcb ▸ List.mem_cons_self r rs)
        · exact Or.inr (List.mem_cons_of_mem r hcm)
      · exact le_of_lt (lt_of_le_of_lt hle h)
      · intro x hx
        rcases List.mem_cons.mp hx with hxr | hxm
        · exact hxr ▸ hle
        · exact hall x hxm
    · have hstep : minStep (some b) r = some b := by
        show (if r.priority < b.priority then some r else some b) = some b
        rw [if_neg h]
      rw [hstep]
      obtain ⟨c, hc, hmem, hle, hall⟩ := ih b
      refine ⟨c, hc, ?_, hle, ?_⟩
      · rcases hmem with hcb | hcm
        · exact Or.inl hcb
        · exact Or.inr (List.mem_cons_of_mem r hcm)
      · intro x hx
        rcases List.mem_cons.mp hx with hxr | hxm
        · exact hxr ▸ le_trans hle (le_of_not_lt h)
        · exact hall x hxm

/-- C6 counterexample: a global rule (NULL `user_id` and `model_id`) that
is active, unbounded and within every validity window is a candidate under
the claim's wording, yet the code's query — which requires
`user_id == data.user_id` and `model_id == data.model_id`, comparisons a
NULL column never satisfies — selects nothing. -/
theorem c6_counterexample :
    claimCandidate ⟨2025, 1, 1⟩ exGlobalRule 1 2 0 = true ∧
      select_applicable_discount [exGlobalRule] 1 2 0 = none := by
  decide

/-- C6 (amended): the selector considers as candidates exactly the rules
that are active, whose `user_id` equals the event's user and whose
`model_id` equals the event's model (a NULL scope column never matches, so
global rules are never candidates), with
`min_requests <= request_count <= max_requests` (max NULL unbounded) and no
validity-window filtering; among candidates it returns one of minimal
priority value (ties broken by table order), and none when no candidate
exists — so for identical rule sets and identical usage counts the
selection is the same. -/
theorem c6_selection :
    (∀ (rules : List DiscountRule) (uid mid cnt : Nat) (r : DiscountRule),
        select_applicable_discount rules uid mid cnt = some r →
          r ∈ rules ∧ discountCandidate r uid mid cnt = true ∧
            ∀ x ∈ rules, discountCandidate x uid mid cnt = true →
              r.priority ≤ x.priority) ∧
      (∀ (rules : List DiscountRule) (uid mid cnt : Nat),
        select_applicable_discount rules uid mid cnt = none →
          ∀ x ∈ rules, discountCandidate x uid mid cnt = false) := by
  constructor
  · intro rules uid mid cnt r hsel
    unfold select_applicable_discount firstMinByPriority at hsel
    cases hfil : rules.filter (fun x => discountCandidate x uid mid cnt) with
    | nil => rw [hfil] at hsel; cases hsel
    | cons a t =>
      rw [hfil, List.foldl_cons] at hsel
      have hstep : minStep none a = some a := rfl
      rw [hstep] at hsel
      obtain ⟨c, hc, hmem, hle, hall⟩ := foldl_minStep_some t a
      rw [hc] at hsel
      injection hsel with hsel
      subst hsel
      have hrin : c ∈ rules.filter (fun x => discountCandidate x uid mid cnt) := by
        rw [hfil]
        rcases hmem with hrb | hrm
        · exact hrb ▸ List.mem_cons_self a t
        · exact List.mem_cons_of_mem a hrm
      have hrmem := List.mem_filter.mp hrin
      refine ⟨hrmem.1, hrmem.2, ?_⟩
      intro x hx hcand
      have hxin : x ∈ rules.filter (fun y => discountCandidate y uid mid cnt) :=
        List.mem_filter.mpr ⟨hx, hcand⟩
      rw [hfil] at hxin
      rcases List.mem_cons.mp hxin with hxa | hxt
      · exact hxa ▸ hle
      · exact hall x hxt
  · intro rules uid mid cnt hsel x hx
    by_contra hcand
    have hxin : x ∈ rules.filter (fun y => discountCandidate y uid mid cnt) :=
      List.mem_filter.mpr ⟨hx, by
        cases hcy : discountCandidate x uid mid cnt
        · exact absurd hcy hcand
        · rfl⟩
    unfold select_applicable_discount firstMinByPriority at hsel
    cases hfil : rules.filter (fun y => discountCandidate y uid mid cnt) with
    | nil => rw [hfil] at hxin; cases hxin
    | cons a t =>
      rw [hfil, List.foldl_cons] at hsel
      have hstep : minStep none a = some a := rfl
      rw [hstep] at hsel
      obtain ⟨c, hc, -, -, -⟩ := foldl_minStep_some t a
      rw [hc] at hsel
      cases hsel

/-- C6 witness. -/
theorem c6_witness :
    exUserRule ∈ [exUserRule] ∧ discountCandidate exUserRule 1 2 0 = true :=
  ⟨(c6_selection.1 [exUserRule] 1 2 0 exUserRule (by decide)).1,
    (c6_selection.1 [exUserRule] 1 2 0 exUserRule (by decide)).2.1⟩

/-! ### C4 -/

/-- C4 counterexample: an unprocessed event whose raw model tag
`"acme_foo"` resolves to no model is, after one reconciliation attempt,
marked processed with `retry_count` still 0 — the event does not stay
unprocessed and its retry counter is not incremented. -/
theorem c4_counterexample :
    find_model_by_name [] exUnresolvedLog.raw_model_name = none ∧
      exUnresolvedLog.billing_processed = false ∧
      (process_billing_entry [] [] ⟨2025, 1, 2⟩ exUnresolvedLog).billing_processed
          = true ∧
      (process_billing_entry [] [] ⟨2025, 1, 2⟩ exUnresolvedLog).retry_count = 0 := by
  decide

/-- C4 (amended): for an event whose raw model tag resolves to no known
model, one reconciliation attempt records the failure reason in
`error_message` but does NOT increment `retry_count`, does NOT leave the
event unprocessed (it is marked processed, with its costs untouched), and
there is no terminal `failed` state — `retry_count` only grows on the
exception path, and the retry ceiling merely filters the reprocessing
query. -/
theorem c4_model_resolution_failure (users : List User) (models : List AIModel)
    (now : Date) (log : APIUsageLog)
    (hname : log.raw_model_name ≠ "")
    (hmiss : find_model_by_name models log.raw_model_name = none) :
    (process_billing_entry users models now log).error_message
        = some ("No AI model found for: " ++ log.raw_model_name) ∧
      (process_billing_entry users models now log).retry_count = log.retry_count ∧
      (process_billing_entry users models now log).billing_processed = true ∧
      (process_billing_entry users models now log).model_id = log.model_id ∧
      (process_billing_entry users models now log).original_cost
          = log.original_cost ∧
      (process_billing_entry users models now log).total_cost = log.total_cost ∧
      ∀ (logs : List APIUsageLog) (lim : Nat),
        process_billing_entry users models now log ∉ get_unprocessed_entries logs lim := by
  obtain ⟨hraw, hmid, htok, hdisc, horig, htot, hretry, hstat⟩ :=
    userResolutionStep_fields users log
  have hstep : modelResolutionStep models (userResolutionStep users log) =
      { userResolutionStep users log with
          error_message := some ("No AI model found for: " ++ log.raw_model_name) } := by
    have h := modelResolutionStep_miss models (userResolutionStep users log)
      (by rw [hraw]; exact hname) (by rw [hraw]; exact hmiss)
    rw [h]
    simp only [hraw]
  have hproc : process_billing_entry users models now log =
      APIUsageLog.mark_as_processed
        { userResolutionStep users log with
            error_message := some ("No AI model found for: " ++ log.raw_model_name) }
        ({ userResolutionStep users log with
            error_message :=
              some ("No AI model found for: " ++ log.raw_model_name) }).user_id
        ({ userResolutionStep users log with
            error_message :=
              some ("No AI model found for: " ++ log.raw_model_name) }).model_id
        now := by
    unfold process_billing_entry
    dsimp only
    rw [hstep]
  rw [hproc]
  refine ⟨rfl, hretry, rfl, ?_, horig, htot, ?_⟩
  · rw [(mark_keeps_ids _ now).2]
    exact hmid
  · intro logs lim hmem
    have h1 := mem_get_unprocessed_entries _ logs lim hmem
    have h2 : (true : Bool) = false := h1
    cases h2

/-- C4 witness. -/
theorem c4_witness :
    (process_billing_entry [] [] ⟨2025, 1, 2⟩ exUnresolvedLog).error_message
        = some "No AI model found for: acme_foo" ∧
      (process_billing_entry [] [] ⟨2025, 1, 2⟩ exUnresolvedLog).retry_count
          = exUnresolvedLog.retry_count :=
  ⟨(c4_model_resolution_failure [] [] ⟨2025, 1, 2⟩ exUnresolvedLog
      (by decide) (by decide)).1,
    (c4_model_resolution_failure [] [] ⟨2025, 1, 2⟩ exUnresolvedLog
      (by decide) (by decide)).2.1⟩

/-! ### C5 -/

/-- C5 counterexample: an event whose model resolves but whose company tag
matches no user is marked processed by reconciliation — `processing_state`
does not remain unprocessed, so the attribution sweep (which selects only
unprocessed rows) will never revisit it. -/
theorem c5_counterexample :
    find_user_by_company [] "acme" = none ∧
      find_model_by_name [exSentModel] exOrphanLog.raw_model_name
          = some exSentModel ∧
      (process_billing_entry [] [exSentModel] ⟨2025, 1, 2⟩ exOrphanLog).user_id
          = none ∧
      (process_billing_entry [] [exSentModel] ⟨2025, 1, 2⟩
          exOrphanLog).billing_processed = true := by
  decide

/-- C5 (amended): when the model resolves but the company tag matches no
user, reconciliation rates the event — the outcome is identical for any two
user stores on which resolution fails, so the cost does not depend on the
unresolved identity — and leaves `resolved_user_id` null; but the event IS
marked processed, so it is NOT picked up again by the sweep over
unprocessed rows. -/
theorem c5_orphaned_event (users1 users2 : List User) (models : List AIModel)
    (now : Date) (log : APIUsageLog) (m : AIModel) (c : String)
    (hc : log.company_name = some c) (hcne : c ≠ "")
    (h1 : find_user_by_company users1 c = none)
    (h2 : find_user_by_company users2 c = none)
    (hu : log.user_id = none)
    (hname : log.raw_model_name ≠ "")
    (hm : find_model_by_name models log.raw_model_name = some m) :
    process_billing_entry users1 models now log
        = process_billing_entry users2 models now log ∧
      (process_billing_entry users1 models now log).user_id = none ∧
      (process_billing_entry users1 models now log).model_id = some m.id ∧
      (process_billing_entry users1 models now log).billing_processed = true ∧
      ∀ (logs : List APIUsageLog) (lim : Nat),
        process_billing_entry users1 models now log ∉ get_unprocessed_entries logs lim := by
  have hu1 := userResolutionStep_user_miss users1 log c hc hcne h1
  have hu2 := userResolutionStep_user_miss users2 log c hc hcne h2
  have hsame : userResolutionStep users1 log = userResolutionStep users2 log := by
    rw [hu1, hu2]
  have heq : process_billing_entry users1 models now log
      = process_billing_entry users2 models now log := by
    unfold process_billing_entry
    dsimp only
    rw [hsame]
  have hstep : modelResolutionStep models (userResolutionStep users1 log) =
      { userResolutionStep users1 log with
          model_id := some m.id
          original_cost :=
            calculate_model_cost
              { userResolutionStep users1 log with model_id := some m.id } (some m)
          total_cost :=
            calculate_model_cost
              { userResolutionStep users1 log with model_id := some m.id } (some m) *
              (1 - (userResolutionStep users1 log).applied_discount / 100) } := by
    exact modelResolutionStep_found models (userResolutionStep users1 log) m
      (by rw [(userResolutionStep_fields users1 log).1]; exact hname)
      (by rw [(userResolutionStep_fields users1 log).1]; exact hm)
  have hproc : ∀ r : APIUsageLog,
      modelResolutionStep models (userResolutionStep users1 log) = r →
        process_billing_entry users1 models now log =
          r.mark_as_processed r.user_id r.model_id now := by
    intro r hr
    unfold process_billing_entry
    dsimp only
    rw [hr]
  rw [hproc _ hstep]
  have huid : ({ userResolutionStep users1 log with
      model_id := some m.id
      original_cost :=
        calculate_model_cost
          { userResolutionStep users1 log with model_id := some m.id } (some m)
      total_cost :=
        calculate_model_cost
          { userResolutionStep users1 log with model_id := some m.id } (some m) *
          (1 - (userResolutionStep users1 log).applied_discount / 100) } :
        APIUsageLog).user_id = none := by
    show (userResolutionStep users1 log).user_id = none
    rw [hu1]
    exact hu
  refine ⟨?_, ?_, ?_, rfl, ?_⟩
  · rw [← hproc _ hstep]
    exact heq
  · rw [(mark_keeps_ids _ now).1]
    exact huid
  · rw [(mark_keeps_ids _ now).2]
  · intro logs lim hmem
    have hmem2 : process_billing_entry users1 models now log ∈
        get_unprocessed_entries logs lim := by
      rw [hproc _ hstep]
      exact hmem
    have hpb := mem_get_unprocessed_entries _ logs lim hmem2
    have h3 : (true : Bool) = false := hpb
    cases h3

/-- C5 witness. -/
theorem c5_witness :
    (process_billing_entry [] [exSentModel] ⟨2025, 1, 2⟩ exOrphanLog).user_id
        = none ∧
      (process_billing_entry [] [exSentModel] ⟨2025, 1, 2⟩
          exOrphanLog).billing_processed = true :=
  ⟨(c5_orphaned_event [] [] [exSentModel] ⟨2025, 1, 2⟩ exOrphanLog exSentModel
      "acme" (by decide) (by decide) (by decide) (by decide) (by decide)
      (by decide) (by decide)).2.1,
    (c5_orphaned_event [] [] [exSentModel] ⟨2025, 1, 2⟩ exOrphanLog exSentModel
      "acme" (by decide) (by decide) (by decide) (by decide) (by decide)
      (by decide) (by decide)).2.2.2.1⟩

/-! ### C7 -/

/-- C7 counterexample: rated against a model whose configured price is
negative under a 200% discount (neither field is validated), an event is
marked processed with stored net cost -1 — the net cost is not floored at
0 (the `max(0, ...)` floor is applied to the stored gross, and the second
discount application can make the net negative). -/
theorem c7_counterexample :
    (process_billing_entry [] [exNegPriceModel] ⟨2025, 1, 2⟩
        exOverdiscountedLog).billing_processed = true ∧
      (process_billing_entry [] [exNegPriceModel] ⟨2025, 1, 2⟩
          exOverdiscountedLog).total_cost = -1 ∧
      (process_billing_entry [] [exNegPriceModel] ⟨2025, 1, 2⟩
          exOverdiscountedLog).total_cost < 0 := by
  have hstep := modelResolutionStep_found [exNegPriceModel] exOverdiscountedLog
    exNegPriceModel (by decide) (by decide)
  have hproc : ∀ r : APIUsageLog,
      modelResolutionStep [exNegPriceModel]
          (userResolutionStep [] exOverdiscountedLog) = r →
        process_billing_entry [] [exNegPriceModel] ⟨2025, 1, 2⟩ exOverdiscountedLog
          = r.mark_as_processed r.user_id r.model_id ⟨2025, 1, 2⟩ := by
    intro r hr
    unfold process_billing_entry
    dsimp only
    rw [hr]
  have hcost : (process_billing_entry [] [exNegPriceModel] ⟨2025, 1, 2⟩
      exOverdiscountedLog).total_cost = -1 := by
    rw [hproc _ hstep]
    show calculate_model_cost
        { exOverdiscountedLog with model_id := some exNegPriceModel.id }
        (some exNegPriceModel) *
        (1 - exOverdiscountedLog.applied_discount / 100) = -1
    norm_num [calculate_model_cost, exOverdiscountedLog, exBaseLog, exNegPriceModel]
  refine ⟨rfl, hcost, ?_⟩
  rw [hcost]
  norm_num

/-- C7 (amended): for every event processed with a resolved model, the
stored net cost equals the stored gross cost times
`(1 - applied_discount/100)` — where the stored gross is itself the
already-discounted, floored `calculate_model_cost` result — and the net
cost is non-negative whenever the model's configured prices are
non-negative; the floor is applied to the gross, not the net, so with a
negatively-priced model and a discount above 100% the net can be negative. -/
theorem c7_cost_invariant (users : List User) (models : List AIModel)
    (now : Date) (log : APIUsageLog) (m : AIModel)
    (hname : log.raw_model_name ≠ "")
    (hm : find_model_by_name models log.raw_model_name = some m) :
    (process_billing_entry users models now log).total_cost
        = (process_billing_entry users models now log).original_cost *
            (1 - (process_billing_entry users models now log).applied_discount / 100) ∧
      (0 ≤ m.input_cost_per_1k_tokens → 0 ≤ m.request_cost →
        0 ≤ (process_billing_entry users models now log).total_cost) := by
  obtain ⟨hraw, hmid, htok, hdisc, horig, htot, hretry, hstat⟩ :=
    userResolutionStep_fields users log
  have hstep := modelResolutionStep_found models (userResolutionStep users log) m
    (by rw [hraw]; exact hname) (by rw [hraw]; exact hm)
  have hproc : ∀ r : APIUsageLog,
      modelResolutionStep models (userResolutionStep users log) = r →
        process_billing_entry users models now log =
          r.mark_as_processed r.user_id r.model_id now := by
    intro r hr
    unfold process_billing_entry
    dsimp only
    rw [hr]
  rw [hproc _ hstep]
  constructor
  · rfl
  · intro hin hreq
    show 0 ≤ calculate_model_cost
        { userResolutionStep users log with model_id := some m.id } (some m) *
        (1 - (userResolutionStep users log).applied_discount / 100)
    unfold calculate_model_cost
    dsimp only
    have hbase : 0 ≤ (if (userResolutionStep users log).total_tokens ≠ 0 ∧
        m.input_cost_per_1k_tokens ≠ 0 then
          ((userResolutionStep users log).total_tokens : ℚ) *
            (m.input_cost_per_1k_tokens / 1000)
        else if m.request_cost ≠ 0 then m.request_cost else (0.01 : ℚ)) := by
      split
      · exact mul_nonneg (by positivity) (div_nonneg hin (by norm_num))
      · split
        · exact hreq
        · norm_num
    set B := (if (userResolutionStep users log).total_tokens ≠ 0 ∧
        m.input_cost_per_1k_tokens ≠ 0 then
          ((userResolutionStep users log).total_tokens : ℚ) *
            (m.input_cost_per_1k_tokens / 1000)
        else if m.request_cost ≠ 0 then m.request_cost else (0.01 : ℚ)) with hB
    set D := (userResolutionStep users log).applied_discount with hD
    by_cases hd : D ≤ 100
    · have hfac : 0 ≤ 1 - D / 100 := by
        have : D / 100 ≤ 1 := by
          rw [div_le_one (by norm_num : (0:ℚ) < 100)]
          exact hd
        linarith
      exact mul_nonneg (le_max_left 0 _) hfac
    · push_neg at hd
      have hfac : 1 - D / 100 ≤ 0 := by
        have : 1 < D / 100 := by
          rw [lt_div_iff₀ (by norm_num : (0:ℚ) < 100)]
          linarith
        linarith
      have hx : B - B * (D / 100) ≤ 0 := by
        nlinarith [mul_nonneg hbase (by linarith : (0:ℚ) ≤ D / 100 - 1)]
      rw [max_eq_left hx, zero_mul]

/-- C7 witness. -/
theorem c7_witness :
    (process_billing_entry [] [exSentModel] ⟨2025, 1, 2⟩ exOrphanLog).total_cost
        = (process_billing_entry [] [exSentModel] ⟨2025, 1, 2⟩
              exOrphanLog).original_cost *
            (1 - (process_billing_entry [] [exSentModel] ⟨2025, 1, 2⟩
                exOrphanLog).applied_discount / 100) ∧
      0 ≤ (process_billing_entry [] [exSentModel] ⟨2025, 1, 2⟩
          exOrphanLog).total_cost :=
  ⟨(c7_cost_invariant [] [exSentModel] ⟨2025, 1, 2⟩ exOrphanLog exSentModel
      (by decide) (by decide)).1,
    (c7_cost_invariant [] [exSentModel] ⟨2025, 1, 2⟩ exOrphanLog exSentModel
      (by decide) (by decide)).2 (by decide) (by decide)⟩

/-! ### C2 -/

theorem userMonthlySummary_user_id (logs : List APIUsageLog) (today : Date)
    (year month : Nat) (u : User) :
    (userMonthlySummary logs today year month u).user_id = u.id := rfl

theorem userMonthlySummary_year (logs : List APIUsageLog) (today : Date)
    (year month : Nat) (u : User) :
    (userMonthlySummary logs today year month u).year = year := rfl

theorem userMonthlySummary_month (logs : List APIUsageLog) (today : Date)
    (year month : Nat) (u : User) :
    (userMonthlySummary logs today year month u).month = month := rfl

/-- C2 counterexample: running `generate_monthly_bills` twice over a store
with one user leaves two `MonthlyBillingSummary` rows for the same
`(user_id, year, month)` — the second run neither skips nor overwrites. -/
theorem c2_counterexample :
    ((generate_monthly_bills (generate_monthly_bills exDB ⟨2025, 2, 15⟩)
          ⟨2025, 2, 15⟩).summaries.countP
        (fun s => s.user_id == 1 && s.year == 2025 && s.month == 1)) = 2 := by
  decide

/-- C2 (amended): each run of `generate_monthly_bills` unconditionally
appends one `MonthlyBillingSummary` row per user for the target
`(year, month)` — there is no lookup of an existing row — so for any user id
the number of rows for that key grows by the number of matching users on
every run, and a re-run duplicates rather than skips. -/
theorem c2_aggregation_appends (db : BillingDB) (today : Date) (uid : Nat) :
    ((generate_monthly_bills db today).summaries.countP
        (fun s => s.user_id == uid && s.year == targetYear today &&
          s.month == targetMonth today))
      = (db.summaries.countP
          (fun s => s.user_id == uid && s.year == targetYear today &&
            s.month == targetMonth today))
        + (db.users.countP (fun u => u.id == uid)) := by
  unfold generate_monthly_bills
  rw [List.countP_append, List.countP_map]
  congr 1
  apply List.countP_congr
  intro u hu
  simp [Function.comp, userMonthlySummary_user_id, userMonthlySummary_year,
    userMonthlySummary_month]

/-! ### C8 -/

/-- The `datetime(year, month, 28) + timedelta(days=4)` then
`.replace(day=1)` computation lands on the first day of the following
month, for every valid month. -/
theorem monthEnd_eq (y m : Nat) (h1 : 1 ≤ m) (h2 : m ≤ 12) :
    monthEnd y m = nextMonthStart y m := by
  interval_cases m
  case «2» =>
    by_cases hL : isLeapYear y = true
    · simp [monthEnd, Date.addDays, Date.succ, daysInMonth, hL, nextMonthStart]
    · have hL2 : isLeapYear y = false := by simpa using hL
      simp [monthEnd, Date.addDays, Date.succ, daysInMonth, hL2, nextMonthStart]
  all_goals simp [monthEnd, Date.addDays, Date.succ, daysInMonth, nextMonthStart]

/-- Filtering a mapped list, when the map does not change the predicate. -/
theorem filter_map_of_pred_eq {α : Type} (g : α → α) (p : α → Bool)
    (hp : ∀ x, p (g x) = p x) (l : List α) :
    (l.map g).filter p = (l.filter p).map g := by
  induction l with
  | nil => rfl
  | cons a t ih =>
    rw [List.map_cons, List.filter_cons, List.filter_cons, hp a]
    cases hpa : p a
    · simpa using ih
    · simp [ih]

/-- C8 counterexample: the store holds a single usage row for user 1 that
is NOT processed (`billing_processed = false`, `processed_at` null) but was
created inside the target month; the generated summary bills its net cost
5, whereas the claim's scope — `processed` events by `processed_at` —
contains nothing and sums to 0. -/
theorem c8_counterexample :
    ((generate_monthly_bills exDB ⟨2025, 2, 15⟩).summaries.map
        (fun s => s.usage_cost)) = [5] ∧
      exInMonthLog.billing_processed = false ∧
      claimedMonthlyUsageCost exDB.logs 1 2025 1 = 0 := by
  refine ⟨?_, rfl, ?_⟩
  · show [(userMonthlySummary exDB.logs ⟨2025, 2, 15⟩ 2025 1 exUser1).usage_cost]
        = [5]
    norm_num [userMonthlySummary, exDB, exInMonthLog, exBaseLog, exUser1,
      monthEnd, Date.addDays, Date.succ, daysInMonth, Date.le, Date.lt]
  · norm_num [claimedMonthlyUsageCost, exDB, exInMonthLog, exBaseLog,
      nextMonthStart]

/-- C8 (amended): for a target `(year, month)` the Monthly Aggregator sums
net cost over exactly the events whose `created_at` — not `processed_at` —
falls within `[first instant of the month, first instant of the next
month)`, with no restriction on processing state: the recorded usage cost
equals the `created_at`-scoped sum, and rewriting every row's processing
metadata (anything except user, `created_at`, tokens and the two costs)
changes no field of the generated summary. -/
theorem c8_aggregation_scope :
    (∀ (logs : List APIUsageLog) (today : Date) (y m : Nat) (u : User),
        1 ≤ m → m ≤ 12 →
          (userMonthlySummary logs today y m u).usage_cost
            = createdAtMonthlyUsageCost logs u.id y m) ∧
      (∀ (g : APIUsageLog → APIUsageLog) (logs : List APIUsageLog)
          (today : Date) (y m : Nat) (u : User),
        (∀ l, (g l).user_id = l.user_id ∧ (g l).created_at = l.created_at ∧
            (g l).total_tokens = l.total_tokens ∧
            (g l).original_cost = l.original_cost ∧
            (g l).total_cost = l.total_cost) →
          userMonthlySummary (logs.map g) today y m u
            = userMonthlySummary logs today y m u) := by
  constructor
  · intro logs today y m u hm1 hm2
    show ((logs.filter (fun l =>
        l.user_id == some u.id && Date.le ⟨y, m, 1⟩ l.created_at &&
          Date.lt l.created_at (monthEnd y m))).map (fun l => l.total_cost)).sum
      = createdAtMonthlyUsageCost logs u.id y m
    rw [monthEnd_eq y m hm1 hm2]
    rfl
  · intro g logs today y m u hg
    have hp : ∀ l : APIUsageLog,
        ((g l).user_id == some u.id && Date.le ⟨y, m, 1⟩ (g l).created_at &&
          Date.lt (g l).created_at (monthEnd y m))
        = (l.user_id == some u.id && Date.le ⟨y, m, 1⟩ l.created_at &&
          Date.lt l.created_at (monthEnd y m)) := by
      intro l
      rw [(hg l).1, (hg l).2.1]
    have hfil := filter_map_of_pred_eq g
      (fun l => l.user_id == some u.id && Date.le ⟨y, m, 1⟩ l.created_at &&
        Date.lt l.created_at (monthEnd y m)) hp logs
    unfold userMonthlySummary
    dsimp only
    rw [hfil]
    have htok : ((logs.filter (fun l =>
        l.user_id == some u.id && Date.le ⟨y, m, 1⟩ l.created_at &&
          Date.lt l.created_at (monthEnd y m))).map g).map (fun l => l.total_tokens)
        = (logs.filter (fun l =>
            l.user_id == some u.id && Date.le ⟨y, m, 1⟩ l.created_at &&
              Date.lt l.created_at (monthEnd y m))).map (fun l => l.total_tokens) := by
      rw [List.map_map]
      exact List.map_congr_left (fun x hx => (hg x).2.2.1)
    have horig : ((logs.filter (fun l =>
        l.user_id == some u.id && Date.le ⟨y, m, 1⟩ l.created_at &&
          Date.lt l.created_at (monthEnd y m))).map g).map (fun l => l.original_cost)
        = (logs.filter (fun l =>
            l.user_id == some u.id && Date.le ⟨y, m, 1⟩ l.created_at &&
              Date.lt l.created_at (monthEnd y m))).map (fun l => l.original_cost) := by
      rw [List.map_map]
      exact List.map_congr_left (fun x hx => (hg x).2.2.2.1)
    have htot : ((logs.filter (fun l =>
        l.user_id == some u.id && Date.le ⟨y, m, 1⟩ l.created_at &&
          Date.lt l.created_at (monthEnd y m))).map g).map (fun l => l.total_cost)
        = (logs.filter (fun l =>
            l.user_id == some u.id && Date.le ⟨y, m, 1⟩ l.created_at &&
              Date.lt l.created_at (monthEnd y m))).map (fun l => l.total_cost) := by
      rw [List.map_map]
      exact List.map_congr_left (fun x hx => (hg x).2.2.2.2)
    rw [htok, horig, htot, List.length_map]

/-- C8 witness. -/
theorem c8_witness :
    (userMonthlySummary exDB.logs ⟨2025, 2, 15⟩ 2025 1 exUser1).usage_cost
      = createdAtMonthlyUsageCost exDB.logs exUser1.id 2025 1 :=
  c8_aggregation_scope.1 exDB.logs ⟨2025, 2, 15⟩ 2025 1 exUser1
    (le_refl 1) (by norm_num)

end Billing
